import Mathlib

/-!
Verification development for the protocol-identification-and-dispatch core of
the glutton honeypot (`protocols/protocols.go`).

The embedding models:
- a stream connection as the byte sequence the client sends, together with the
  connection's deadline behaviour (whether a peek under the armed 500 ms read
  deadline times out, and whether the `SetReadDeadline` calls fail);
- the `Peek` helper (whose own source file is external to the shown package
  code; it is modelled from the specification of the Peeker);
- the classifier closure registered under the `"tcp"` key of
  `MapTCPProtocolHandlers`, instrumented with an event trace recording deadline
  operations, log calls, the banner send and the final dispatch;
- the two registry factories `MapTCPProtocolHandlers` / `MapUDPProtocolHandlers`
  as association lists in source insertion order.

External collaborators (the `tcp` and `udp` emulator packages, the logger and
the honeypot context) are opaque: the emulator entry points are fields of a
`TCPLib` / `UDPLib` record the development quantifies over, and Go `error`
results are modelled as `Option String` (`none` = nil error).
-/

/-- Opaque logger collaborator (`interfaces.Logger`). -/
structure Logger where
  id : Nat
  deriving DecidableEq

/-- Opaque honeypot-context collaborator (`interfaces.Honeypot`). -/
structure Honeypot where
  id : Nat
  deriving DecidableEq

/-- Opaque cancellation context (`context.Context`). -/
structure Ctx where
  id : Nat
  deriving DecidableEq

/-- Connection metadata (`connection.Metadata`). The classifier reads only the
target port; all other fields pass through opaquely and are elided. -/
structure Metadata where
  targetPort : Nat
  deriving DecidableEq

/-- A raw stream connection: the bytes the client sends (each a byte value),
whether a read armed with the short deadline times out before any byte
arrives, and the results of the two `SetReadDeadline` calls (arming and
clearing; `none` = success). -/
structure Conn where
  stream : List Nat
  timesOut : Bool
  armErr : Option String
  clearErr : Option String
  deriving DecidableEq

/-- A `net.Conn` value as seen by handlers: either the original (unwrapped)
connection, or the replay-capable wrapped connection produced by `Peek`,
holding the peeked bytes in its buffer in front of the underlying stream
(whose first `peeked.length` bytes the peek consumed). -/
inductive NetConn where
  | raw (c : Conn)
  | buffered (peeked : List Nat) (c : Conn)
  deriving DecidableEq

/-- Every byte a reader of this connection value observes, in order: a
wrapped connection replays its buffer first, then the unread underlying
stream data. -/
def NetConn.readAll : NetConn → List Nat
  | .raw c => c.stream
  | .buffered peeked c => peeked ++ c.stream.drop peeked.length

/-- Collapse a connection value to an equivalent raw connection record
(deadline behaviour is delegated to the underlying connection). -/
def NetConn.asConn : NetConn → Conn
  | .raw c => c
  | .buffered peeked c => { c with stream := peeked ++ c.stream.drop peeked.length }

/-- Whether a peek on this connection under the armed deadline times out. -/
def NetConn.timesOut (nc : NetConn) : Bool := nc.asConn.timesOut

/-- Result of `SetReadDeadline` arming the 500 ms deadline. -/
def NetConn.armErr (nc : NetConn) : Option String := nc.asConn.armErr

/-- Result of `SetReadDeadline(time.Time\x7b\x7d)` clearing the deadline. -/
def NetConn.clearErr (nc : NetConn) : Option String := nc.asConn.clearErr

/-- Classification of a peek failure: a network timeout
(`netErr.Timeout()` true) or any other I/O error (EOF, reset, short read). -/
inductive PeekError where
  | timeout
  | other
  deriving DecidableEq

/-- Modelled from the spec: the Peeker contract `Peek(connection, width) ->
(snippet, wrappedConnection, error)`; the Peeker's own source file is not part
of the shown package code (only its caller is). Per the spec: on read timeout
nothing arrived, so the snippet is empty and the error is timeout-classified;
on short read (EOF/reset before `width` bytes) the partial snippet is returned
with a non-timeout error; on success exactly `width` bytes are returned with
no error; in every case the wrapped connection replays the snippet
byte-for-byte before the unread underlying data. -/
def Peek (nc : NetConn) (width : Nat) : List Nat × NetConn × Option PeekError :=
  let s := nc.readAll
  if nc.timesOut then
    ([], NetConn.buffered [] nc.asConn, some PeekError.timeout)
  else if s.length < width then
    (s, NetConn.buffered s nc.asConn, some PeekError.other)
  else
    (s.take width, NetConn.buffered (s.take width) nc.asConn, none)

/-- Snippet component of `Peek conn 4`. -/
def peekSnip (nc : NetConn) : List Nat := (Peek nc 4).1

/-- Wrapped-connection component of `Peek conn 4`. -/
def peekConn (nc : NetConn) : NetConn := (Peek nc 4).2.1

/-- Error component of `Peek conn 4`. -/
def peekErr (nc : NetConn) : Option PeekError := (Peek nc 4).2.2

/-- The Go idiom `errors.As(err, &netErr) && netErr.Timeout()`. -/
def isTimeout : Option PeekError → Bool
  | some PeekError.timeout => true
  | _ => false

/-- External emulator entry points of the `tcp` package consumed by
`MapTCPProtocolHandlers`, plus `tcp.SendBanner`; each takes the cancellation
context, a connection, metadata, logger and honeypot context and returns a Go
error (`none` = nil). -/
structure TCPLib where
  HandleSMTP : Ctx → NetConn → Metadata → Logger → Honeypot → Option String
  HandleRDP : Ctx → NetConn → Metadata → Logger → Honeypot → Option String
  HandleSMB : Ctx → NetConn → Metadata → Logger → Honeypot → Option String
  HandleFTP : Ctx → NetConn → Metadata → Logger → Honeypot → Option String
  HandleSIP : Ctx → NetConn → Metadata → Logger → Honeypot → Option String
  HandleRFB : Ctx → NetConn → Metadata → Logger → Honeypot → Option String
  HandleTelnet : Ctx → NetConn → Metadata → Logger → Honeypot → Option String
  HandleMQTT : Ctx → NetConn → Metadata → Logger → Honeypot → Option String
  HandleBittorrent : Ctx → NetConn → Metadata → Logger → Honeypot → Option String
  HandleMemcache : Ctx → NetConn → Metadata → Logger → Honeypot → Option String
  HandleJabber : Ctx → NetConn → Metadata → Logger → Honeypot → Option String
  HandleADB : Ctx → NetConn → Metadata → Logger → Honeypot → Option String
  HandleHTTP : Ctx → NetConn → Metadata → Logger → Honeypot → Option String
  HandleTCP : Ctx → NetConn → Metadata → Logger → Honeypot → Option String
  SendBanner : Nat → NetConn → Metadata → Logger → Honeypot → Option String

/-- Source/destination address of a datagram (`net.UDPAddr`). -/
structure UDPAddress where
  ip : List Nat
  port : Nat
  deriving DecidableEq

/-- External entry point of the `udp` package (`udp.HandleUDP`). -/
structure UDPLib where
  HandleUDP : Ctx → UDPAddress → UDPAddress → List Nat → Metadata → Logger → Honeypot → Option String

/-- Observable step of the classifier, in execution order: deadline
operations, log calls, the banner send, and the final dispatch (recording
which handler was chosen and which connection value it was handed). -/
inductive Event where
  | armDeadline (ms : Nat)
  | clearDeadline
  | logError (msg : String)
  | logDebug (msg : String)
  | sendBanner (port : Nat)
  | dispatchHTTP (c : NetConn)
  | dispatchRDP (c : NetConn)
  | dispatchTCP (c : NetConn)
  deriving DecidableEq

/-- Events produced by `conn.SetReadDeadline(time.Now().Add(500 *
time.Millisecond))` and the error log on its failure. -/
def armEvents (nc : NetConn) : List Event :=
  Event.armDeadline 500 ::
    (match nc.armErr with
     | some _ => [Event.logError "failed to set read deadline"]
     | none => [])

/-- Events produced by `conn.SetReadDeadline(time.Time\x7b\x7d)` and the error
log on its failure. -/
def clearEvents (nc : NetConn) : List Event :=
  Event.clearDeadline ::
    (match nc.clearErr with
     | some _ => [Event.logError "failed to reset read deadline"]
     | none => [])

/-- Events produced by `tcp.SendBanner(md.TargetPort, conn, ...)` and the
error log on its failure; `bannerRes` is the banner send's result. -/
def bannerEvents (bannerRes : Option String) (port : Nat) : List Event :=
  Event.sendBanner port ::
    (match bannerRes with
     | some _ => [Event.logError "Failed to send service banner"]
     | none => [])

/-- Event produced by `log.Debug("failed to peek connection", ...)` when the
peek returned a (non-timeout) error. -/
def peekLogEvents (err : Option PeekError) : List Event :=
  match err with
  | some _ => [Event.logDebug "failed to peek connection"]
  | none => []

/-- The HTTP signature set `\x7b"GET ": true, "POST": true, "HEAD": true,
"OPTI": true, "CONN": true\x7d`, as byte sequences. -/
def httpMap : List (List Nat) :=
  [[71, 69, 84, 32], [80, 79, 83, 84], [72, 69, 65, 68], [79, 80, 84, 73], [67, 79, 78, 78]]

/-- Byte-level model of `strings.ToUpper` on one byte: ASCII lowercase maps to
uppercase, everything else is unchanged. For the membership test against the
four-character all-ASCII keys of `httpMap` this coincides with Go's
Unicode-aware `strings.ToUpper` of `string(snip)`: a match requires four runes
in four bytes, hence four ASCII runes, which Go uppercases exactly this way. -/
def asciiToUpper (b : Nat) : Nat :=
  if 97 ≤ b ∧ b ≤ 122 then b - 32 else b

/-- The check `if _, ok := httpMap[strings.ToUpper(string(snip))]; ok`. -/
def httpMatch (snip : List Nat) : Bool :=
  decide (snip.map asciiToUpper ∈ httpMap)

/-- The fixed RDP connection-request marker `[]byte\x7b0x03, 0x00, 0x00,
0x2b\x7d`. -/
def rdpSig : List Nat := [3, 0, 0, 43]

/-- The classifier closure registered under `"tcp"` (protocols.go lines
70-101), instrumented with the event trace; the second component is the Go
return value. Mirrors the source statement by statement: arm the 500 ms read
deadline (failure logged), peek 4 bytes; on a network timeout send the banner
keyed by the target port (failure logged), clear the deadline (failure
logged) and return `tcp.HandleTCP` on the original connection; otherwise
clear the deadline (failure logged), log a peek error at debug severity, then
dispatch on the wrapped connection: HTTP signature first, RDP signature
second, fallback `tcp.HandleTCP` last. -/
def classifyTCP (T : TCPLib) (log : Logger) (h : Honeypot)
    (ctx : Ctx) (conn : NetConn) (md : Metadata) : List Event × Option String :=
  let res := Peek conn 4
  let snip := res.1
  let bufConn := res.2.1
  let err := res.2.2
  if isTimeout err then
    (armEvents conn
      ++ bannerEvents (T.SendBanner md.targetPort conn md log h) md.targetPort
      ++ clearEvents conn
      ++ [Event.dispatchTCP conn],
     T.HandleTCP ctx conn md log h)
  else
    let pre := armEvents conn ++ clearEvents conn ++ peekLogEvents err
    if httpMatch snip then
      (pre ++ [Event.dispatchHTTP bufConn], T.HandleHTTP ctx bufConn md log h)
    else if snip = rdpSig then
      (pre ++ [Event.dispatchRDP bufConn], T.HandleRDP ctx bufConn md log h)
    else
      (pre ++ [Event.dispatchTCP bufConn], T.HandleTCP ctx bufConn md log h)

/-- Stream-handler signature `TCPHandlerFunc`. -/
def TCPHandlerFunc := Ctx → NetConn → Metadata → Option String

/-- Datagram-handler signature `UDPHandlerFunc`. -/
def UDPHandlerFunc := Ctx → UDPAddress → UDPAddress → List Nat → Metadata → Option String

/-- The factory `MapTCPProtocolHandlers(log, h)`: the protocol-name → stream
handler mapping, as an association list in source insertion order; each value
is a closure binding the supplied logger and honeypot context. The `"tcp"`
entry is the classifier. -/
def MapTCPProtocolHandlers (T : TCPLib) (log : Logger) (h : Honeypot) :
    List (String × TCPHandlerFunc) :=
  [("smtp", fun ctx conn md => T.HandleSMTP ctx conn md log h),
   ("rdp", fun ctx conn md => T.HandleRDP ctx conn md log h),
   ("smb", fun ctx conn md => T.HandleSMB ctx conn md log h),
   ("ftp", fun ctx conn md => T.HandleFTP ctx conn md log h),
   ("sip", fun ctx conn md => T.HandleSIP ctx conn md log h),
   ("rfb", fun ctx conn md => T.HandleRFB ctx conn md log h),
   ("telnet", fun ctx conn md => T.HandleTelnet ctx conn md log h),
   ("mqtt", fun ctx conn md => T.HandleMQTT ctx conn md log h),
   ("bittorrent", fun ctx conn md => T.HandleBittorrent ctx conn md log h),
   ("memcache", fun ctx conn md => T.HandleMemcache ctx conn md log h),
   ("jabber", fun ctx conn md => T.HandleJabber ctx conn md log h),
   ("adb", fun ctx conn md => T.HandleADB ctx conn md log h),
   ("tcp", fun ctx conn md => (classifyTCP T log h ctx conn md).2)]

/-- The factory `MapUDPProtocolHandlers(log, h)`: the protocol-name → datagram
handler mapping. -/
def MapUDPProtocolHandlers (U : UDPLib) (log : Logger) (h : Honeypot) :
    List (String × UDPHandlerFunc) :=
  [("udp", fun ctx srcAddr dstAddr data md => U.HandleUDP ctx srcAddr dstAddr data md log h)]

/-- Whether an event is a handler dispatch. -/
def Event.isDispatch : Event → Bool
  | .dispatchHTTP _ => true
  | .dispatchRDP _ => true
  | .dispatchTCP _ => true
  | _ => false

/-- Whether an event is one of the decision-relevant steps: banner send,
deadline clear, or handler dispatch (log and arm events are elided). -/
def Event.isStep : Event → Bool
  | .sendBanner _ => true
  | .clearDeadline => true
  | .dispatchHTTP _ => true
  | .dispatchRDP _ => true
  | .dispatchTCP _ => true
  | _ => false

/-- Whether an event is a banner send. -/
def Event.isBanner : Event → Bool
  | .sendBanner _ => true
  | _ => false

/-- Whether an event is a debug-severity log call. -/
def Event.isDebugLog : Event → Bool
  | .logDebug _ => true
  | _ => false

/-- Whether an event is the deadline clear. -/
def Event.isClear : Event → Bool
  | .clearDeadline => true
  | _ => false

/-- The connection value handed over by a dispatch event. -/
def Event.connOf : Event → Option NetConn
  | .dispatchHTTP c => some c
  | .dispatchRDP c => some c
  | .dispatchTCP c => some c
  | _ => none

/-- The return value of the handler named by a dispatch event, applied to the
dispatched connection. -/
def dispatchResult (T : TCPLib) (log : Logger) (h : Honeypot) (ctx : Ctx)
    (md : Metadata) : Event → Option String
  | .dispatchHTTP c => T.HandleHTTP ctx c md log h
  | .dispatchRDP c => T.HandleRDP ctx c md log h
  | .dispatchTCP c => T.HandleTCP ctx c md log h
  | _ => none

/-- Concrete collaborator instances used to evaluate the theorems on
concrete connections. -/
def testLog : Logger := ⟨0⟩

/-- Concrete honeypot context for concrete evaluations. -/
def testHpot : Honeypot := ⟨0⟩

/-- Concrete cancellation context for concrete evaluations. -/
def testCtx : Ctx := ⟨0⟩

/-- Concrete metadata (target port 8080) for concrete evaluations. -/
def testMd : Metadata := ⟨8080⟩

/-- Concrete emulator library whose entry points return distinguishable
results, for concrete evaluations. -/
def testLib : TCPLib where
  HandleSMTP := fun _ _ _ _ _ => some "smtp"
  HandleRDP := fun _ _ _ _ _ => some "rdp"
  HandleSMB := fun _ _ _ _ _ => some "smb"
  HandleFTP := fun _ _ _ _ _ => some "ftp"
  HandleSIP := fun _ _ _ _ _ => some "sip"
  HandleRFB := fun _ _ _ _ _ => some "rfb"
  HandleTelnet := fun _ _ _ _ _ => some "telnet"
  HandleMQTT := fun _ _ _ _ _ => some "mqtt"
  HandleBittorrent := fun _ _ _ _ _ => some "bittorrent"
  HandleMemcache := fun _ _ _ _ _ => some "memcache"
  HandleJabber := fun _ _ _ _ _ => some "jabber"
  HandleADB := fun _ _ _ _ _ => some "adb"
  HandleHTTP := fun _ _ _ _ _ => some "http"
  HandleTCP := fun _ _ _ _ _ => none
  SendBanner := fun _ _ _ _ _ => none

/-- Connection that sends no bytes within the deadline. -/
def connSilent : Conn := ⟨[72, 105], true, none, none⟩

/-- Connection whose stream begins with an HTTP GET request line. -/
def connGET : Conn :=
  ⟨[103, 101, 116, 32, 47, 32, 72, 84, 84, 80], false, none, none⟩

/-- Connection whose stream begins with the RDP marker. -/
def connRDP : Conn := ⟨[3, 0, 0, 43, 1, 2], false, none, none⟩

/-- Connection whose 4-byte snippet matches neither signature. -/
def connXYZ : Conn := ⟨[88, 89, 90, 10, 7], false, none, none⟩

/-- Connection that closes after two bytes (short read). -/
def connShort : Conn := ⟨[88, 89], false, none, none⟩

lemma peekSnip_eq_take (nc : NetConn) (hto : nc.timesOut = false) :
    peekSnip nc = nc.readAll.take 4 := by
  unfold peekSnip Peek
  simp only [hto, Bool.false_eq_true, if_false]
  split
  · exact (List.take_of_length_le (le_of_lt (by assumption))).symm
  · rfl

lemma peekConn_eq_buffered (nc : NetConn) (hto : nc.timesOut = false) :
    peekConn nc = NetConn.buffered (nc.readAll.take 4) nc.asConn := by
  unfold peekConn Peek
  simp only [hto, Bool.false_eq_true, if_false]
  split
  · rw [List.take_of_length_le (le_of_lt (by assumption))]
  · rfl

lemma peekErr_not_timeout (nc : NetConn) (hto : nc.timesOut = false) :
    isTimeout (peekErr nc) = false := by
  unfold peekErr Peek
  simp only [hto, Bool.false_eq_true, if_false]
  split <;> rfl

lemma peekErr_of_timeout (nc : NetConn) (hto : nc.timesOut = true) :
    peekErr nc = some PeekError.timeout := by
  unfold peekErr Peek
  simp [hto]

lemma classifyTCP_timeout (T : TCPLib) (log : Logger) (h : Honeypot) (ctx : Ctx)
    (nc : NetConn) (md : Metadata) (hto : nc.timesOut = true) :
    classifyTCP T log h ctx nc md =
      (armEvents nc
        ++ bannerEvents (T.SendBanner md.targetPort nc md log h) md.targetPort
        ++ clearEvents nc
        ++ [Event.dispatchTCP nc],
       T.HandleTCP ctx nc md log h) := by
  unfold classifyTCP
  have hE : isTimeout (Peek nc 4).2.2 = true := by
    unfold Peek
    simp [hto, isTimeout]
  simp only [hE, if_true]

lemma classifyTCP_not_timeout (T : TCPLib) (log : Logger) (h : Honeypot) (ctx : Ctx)
    (nc : NetConn) (md : Metadata) (hto : nc.timesOut = false) :
    classifyTCP T log h ctx nc md =
      (if httpMatch (peekSnip nc) then
        (armEvents nc ++ clearEvents nc ++ peekLogEvents (peekErr nc)
          ++ [Event.dispatchHTTP (peekConn nc)],
         T.HandleHTTP ctx (peekConn nc) md log h)
      else if peekSnip nc = rdpSig then
        (armEvents nc ++ clearEvents nc ++ peekLogEvents (peekErr nc)
          ++ [Event.dispatchRDP (peekConn nc)],
         T.HandleRDP ctx (peekConn nc) md log h)
      else
        (armEvents nc ++ clearEvents nc ++ peekLogEvents (peekErr nc)
          ++ [Event.dispatchTCP (peekConn nc)],
         T.HandleTCP ctx (peekConn nc) md log h)) := by
  unfold classifyTCP peekSnip peekConn peekErr
  have hE : isTimeout (Peek nc 4).2.2 = false := peekErr_not_timeout nc hto
  unfold peekErr at hE
  simp only [hE, Bool.false_eq_true, if_false]

lemma armEvents_filter_none (nc : NetConn) (p : Event → Bool)
    (h1 : p (Event.armDeadline 500) = false)
    (h2 : ∀ m, p (Event.logError m) = false) :
    (armEvents nc).filter p = [] := by
  unfold armEvents
  cases nc.armErr <;> simp [List.filter, h1, h2]

lemma clearEvents_filter_pos (nc : NetConn) (p : Event → Bool)
    (h1 : p Event.clearDeadline = true)
    (h2 : ∀ m, p (Event.logError m) = false) :
    (clearEvents nc).filter p = [Event.clearDeadline] := by
  unfold clearEvents
  cases nc.clearErr <;> simp [List.filter, h1, h2]

lemma clearEvents_filter_none (nc : NetConn) (p : Event → Bool)
    (h1 : p Event.clearDeadline = false)
    (h2 : ∀ m, p (Event.logError m) = false) :
    (clearEvents nc).filter p = [] := by
  unfold clearEvents
  cases nc.clearErr <;> simp [List.filter, h1, h2]

lemma bannerEvents_filter (bannerRes : Option String) (port : Nat) (p : Event → Bool)
    (h1 : p (Event.sendBanner port) = true)
    (h2 : ∀ m, p (Event.logError m) = false) :
    (bannerEvents bannerRes port).filter p = [Event.sendBanner port] := by
  unfold bannerEvents
  cases bannerRes <;> simp [List.filter, h1, h2]

lemma peekLogEvents_filter_none (err : Option PeekError) (p : Event → Bool)
    (h1 : ∀ m, p (Event.logDebug m) = false) :
    (peekLogEvents err).filter p = [] := by
  unfold peekLogEvents
  cases err <;> simp [List.filter, h1]

lemma asConn_stream (nc : NetConn) : nc.asConn.stream = nc.readAll := by
  cases nc <;> rfl

lemma readAll_peekConn (nc : NetConn) (hto : nc.timesOut = false) :
    (peekConn nc).readAll = nc.readAll := by
  rw [peekConn_eq_buffered nc hto]
  show nc.readAll.take 4 ++ nc.asConn.stream.drop (nc.readAll.take 4).length = nc.readAll
  rw [asConn_stream, List.length_take]
  rcases le_or_lt nc.readAll.length 4 with hle | hlt
  · rw [min_eq_right hle, List.drop_length, List.append_nil, List.take_of_length_le hle]
  · rw [min_eq_left (le_of_lt hlt), List.take_append_drop]

lemma readAll_peekConn_snip (nc : NetConn) (hto : nc.timesOut = false) :
    (peekConn nc).readAll = peekSnip nc ++ nc.readAll.drop (peekSnip nc).length := by
  rw [peekConn_eq_buffered nc hto, peekSnip_eq_take nc hto]
  show nc.readAll.take 4 ++ nc.asConn.stream.drop (nc.readAll.take 4).length
      = nc.readAll.take 4 ++ nc.readAll.drop (nc.readAll.take 4).length
  rw [asConn_stream]

lemma httpMatch_length_four (snip : List Nat) (hm : httpMatch snip = true) :
    snip.length = 4 := by
  unfold httpMatch at hm
  rw [decide_eq_true_iff] at hm
  have hl : (snip.map asciiToUpper).length = snip.length := List.length_map _ _
  unfold httpMap at hm
  simp only [List.mem_cons, List.not_mem_nil, or_false] at hm
  rcases hm with h1 | h1 | h1 | h1 | h1
  all_goals (rw [← hl, h1]; rfl)

lemma rdpSig_length : rdpSig.length = 4 := rfl

lemma probe_filter_isDispatch (nc : NetConn) (err : Option PeekError) (e : Event)
    (he : Event.isDispatch e = true) :
    (armEvents nc ++ clearEvents nc ++ peekLogEvents err ++ [e]).filter Event.isDispatch
      = [e] := by
  unfold armEvents clearEvents peekLogEvents
  cases e <;> cases nc.armErr <;> cases nc.clearErr <;> cases err <;>
    simp_all [List.filter, Event.isDispatch]

lemma probe_filter_isDebugLog (nc : NetConn) (err : Option PeekError) (e : Event)
    (he : Event.isDebugLog e = false) :
    (armEvents nc ++ clearEvents nc ++ peekLogEvents err ++ [e]).filter Event.isDebugLog
      = peekLogEvents err := by
  unfold armEvents clearEvents peekLogEvents
  cases e <;> cases nc.armErr <;> cases nc.clearErr <;> cases err <;>
    simp_all [List.filter, Event.isDebugLog]

lemma probe_filter_isBanner (nc : NetConn) (err : Option PeekError) (e : Event)
    (he : Event.isBanner e = false) :
    (armEvents nc ++ clearEvents nc ++ peekLogEvents err ++ [e]).filter Event.isBanner
      = [] := by
  unfold armEvents clearEvents peekLogEvents
  cases e <;> cases nc.armErr <;> cases nc.clearErr <;> cases err <;>
    simp_all [List.filter, Event.isBanner]

lemma probe_filter_isClear (nc : NetConn) (err : Option PeekError) (e : Event)
    (he : Event.isClear e = false) :
    (armEvents nc ++ clearEvents nc ++ peekLogEvents err ++ [e]).filter Event.isClear
      = [Event.clearDeadline] := by
  unfold armEvents clearEvents peekLogEvents
  cases e <;> cases nc.armErr <;> cases nc.clearErr <;> cases err <;>
    simp_all [List.filter, Event.isClear]

lemma timeout_filter_isDispatch (nc : NetConn) (b : Option String) (port : Nat) :
    (armEvents nc ++ bannerEvents b port ++ clearEvents nc
        ++ [Event.dispatchTCP nc]).filter Event.isDispatch
      = [Event.dispatchTCP nc] := by
  unfold armEvents bannerEvents clearEvents
  cases nc.armErr <;> cases nc.clearErr <;> cases b <;>
    simp [List.filter, Event.isDispatch]

/-- C1: for every connection whose 4-byte peek fails with a network timeout
after the classifier has armed the 500 ms read deadline, the classifier
invokes the banner-send collaborator exactly once, keyed by the metadata's
target port, then clears the read deadline, then dispatches the generic
fallback stream handler on the original unwrapped connection and returns its
result; no HTTP or RDP signature handler is invoked on this path. -/
theorem classifier_timeout_banner_then_fallback
    (T : TCPLib) (log : Logger) (h : Honeypot) (ctx : Ctx) (c : Conn) (md : Metadata)
    (hto : c.timesOut = true) :
    ((classifyTCP T log h ctx (NetConn.raw c) md).1.filter Event.isStep
        = [Event.sendBanner md.targetPort, Event.clearDeadline,
           Event.dispatchTCP (NetConn.raw c)])
      ∧ (classifyTCP T log h ctx (NetConn.raw c) md).2
          = T.HandleTCP ctx (NetConn.raw c) md log h := by
  have hto2 : (NetConn.raw c).timesOut = true := hto
  rw [classifyTCP_timeout T log h ctx (NetConn.raw c) md hto2]
  refine ⟨?_, rfl⟩
  simp only [List.filter_append]
  rw [armEvents_filter_none _ _ rfl (fun m => rfl),
      bannerEvents_filter _ _ _ rfl (fun m => rfl),
      clearEvents_filter_pos _ _ rfl (fun m => rfl)]
  simp [Event.isStep, List.filter]

/-- Witness for C1 at a concrete silent connection. -/
theorem classifier_timeout_banner_then_fallback_witness :
    connSilent.timesOut = true
      ∧ (((classifyTCP testLib testLog testHpot testCtx (NetConn.raw connSilent) testMd).1.filter
            Event.isStep
            = [Event.sendBanner testMd.targetPort, Event.clearDeadline,
               Event.dispatchTCP (NetConn.raw connSilent)])
          ∧ (classifyTCP testLib testLog testHpot testCtx (NetConn.raw connSilent) testMd).2
              = testLib.HandleTCP testCtx (NetConn.raw connSilent) testMd testLog testHpot) :=
  ⟨rfl,
   classifier_timeout_banner_then_fallback testLib testLog testHpot testCtx connSilent testMd rfl⟩

/-- C2: on a non-timeout path whose peeked snippet, uppercased, is one of
GET-space, POST, HEAD, OPTI, CONN, the classifier dispatches the HTTP handler,
passes it the wrapped replay-capable connection (not the raw one), and returns
that handler's result. -/
theorem classifier_http_dispatch
    (T : TCPLib) (log : Logger) (h : Honeypot) (ctx : Ctx) (nc : NetConn) (md : Metadata)
    (hto : nc.timesOut = false) (hh : httpMatch (peekSnip nc) = true) :
    ((classifyTCP T log h ctx nc md).1.filter Event.isDispatch
        = [Event.dispatchHTTP (peekConn nc)])
      ∧ (classifyTCP T log h ctx nc md).2 = T.HandleHTTP ctx (peekConn nc) md log h
      ∧ peekConn nc = NetConn.buffered (peekSnip nc) nc.asConn := by
  rw [classifyTCP_not_timeout T log h ctx nc md hto, if_pos hh]
  refine ⟨?_, rfl, ?_⟩
  · simp only [List.filter_append]
    rw [armEvents_filter_none _ _ rfl (fun m => rfl),
        clearEvents_filter_none _ _ rfl (fun m => rfl),
        peekLogEvents_filter_none _ _ (fun m => rfl)]
    simp [Event.isDispatch, List.filter]
  · rw [peekConn_eq_buffered nc hto, peekSnip_eq_take nc hto]

/-- Witness for C2 at a concrete connection opening with a GET request. -/
theorem classifier_http_dispatch_witness :
    (NetConn.raw connGET).timesOut = false
      ∧ httpMatch (peekSnip (NetConn.raw connGET)) = true
      ∧ (((classifyTCP testLib testLog testHpot testCtx (NetConn.raw connGET) testMd).1.filter
            Event.isDispatch
            = [Event.dispatchHTTP (peekConn (NetConn.raw connGET))])
          ∧ (classifyTCP testLib testLog testHpot testCtx (NetConn.raw connGET) testMd).2
              = testLib.HandleHTTP testCtx (peekConn (NetConn.raw connGET)) testMd testLog testHpot
          ∧ peekConn (NetConn.raw connGET)
              = NetConn.buffered (peekSnip (NetConn.raw connGET)) (NetConn.raw connGET).asConn) :=
  ⟨rfl, by decide,
   classifier_http_dispatch testLib testLog testHpot testCtx (NetConn.raw connGET) testMd rfl
     (by decide)⟩

/-- C3: on a non-timeout path the HTTP check is evaluated before the RDP check
and the first match wins: an HTTP-matching snippet always dispatches the HTTP
handler, and only a snippet that fails the HTTP check and equals the bytes
03 00 00 2B dispatches the RDP handler, with the wrapped connection. -/
theorem classifier_http_before_rdp
    (T : TCPLib) (log : Logger) (h : Honeypot) (ctx : Ctx) (nc : NetConn) (md : Metadata)
    (hto : nc.timesOut = false) :
    (httpMatch (peekSnip nc) = true →
        (classifyTCP T log h ctx nc md).1.filter Event.isDispatch
          = [Event.dispatchHTTP (peekConn nc)])
      ∧ (httpMatch (peekSnip nc) = false → peekSnip nc = rdpSig →
          ((classifyTCP T log h ctx nc md).1.filter Event.isDispatch
              = [Event.dispatchRDP (peekConn nc)])
            ∧ (classifyTCP T log h ctx nc md).2 = T.HandleRDP ctx (peekConn nc) md log h
            ∧ peekConn nc = NetConn.buffered (peekSnip nc) nc.asConn) := by
  rw [classifyTCP_not_timeout T log h ctx nc md hto]
  constructor
  · intro hh
    rw [if_pos hh]
    simp only [List.filter_append]
    rw [armEvents_filter_none _ _ rfl (fun m => rfl),
        clearEvents_filter_none _ _ rfl (fun m => rfl),
        peekLogEvents_filter_none _ _ (fun m => rfl)]
    simp [Event.isDispatch, List.filter]
  · intro hh hr
    have hh2 : ¬ httpMatch (peekSnip nc) = true := by simp [hh]
    rw [if_neg hh2, if_pos hr]
    refine ⟨?_, rfl, ?_⟩
    · simp only [List.filter_append]
      rw [armEvents_filter_none _ _ rfl (fun m => rfl),
          clearEvents_filter_none _ _ rfl (fun m => rfl),
          peekLogEvents_filter_none _ _ (fun m => rfl)]
      simp [Event.isDispatch, List.filter]
    · rw [peekConn_eq_buffered nc hto, peekSnip_eq_take nc hto]

/-- Witness for C3 at a concrete connection opening with the RDP marker. -/
theorem classifier_http_before_rdp_witness :
    (NetConn.raw connRDP).timesOut = false
      ∧ ((httpMatch (peekSnip (NetConn.raw connRDP)) = true →
            (classifyTCP testLib testLog testHpot testCtx (NetConn.raw connRDP) testMd).1.filter
              Event.isDispatch = [Event.dispatchHTTP (peekConn (NetConn.raw connRDP))])
          ∧ (httpMatch (peekSnip (NetConn.raw connRDP)) = false →
              peekSnip (NetConn.raw connRDP) = rdpSig →
              (((classifyTCP testLib testLog testHpot testCtx (NetConn.raw connRDP)
                    testMd).1.filter Event.isDispatch
                  = [Event.dispatchRDP (peekConn (NetConn.raw connRDP))])
                ∧ (classifyTCP testLib testLog testHpot testCtx (NetConn.raw connRDP) testMd).2
                    = testLib.HandleRDP testCtx (peekConn (NetConn.raw connRDP)) testMd testLog
                        testHpot
                ∧ peekConn (NetConn.raw connRDP)
                    = NetConn.buffered (peekSnip (NetConn.raw connRDP))
                        (NetConn.raw connRDP).asConn))) :=
  ⟨rfl,
   classifier_http_before_rdp testLib testLog testHpot testCtx (NetConn.raw connRDP) testMd rfl⟩

/-- C4: when 4 bytes arrive before the deadline but match neither the HTTP
signature set nor the RDP byte sequence, the classifier dispatches the
fallback raw-capture handler with the wrapped replay-capable connection, on
which the 4 peeked bytes are still readable first. -/
theorem classifier_no_match_fallback
    (T : TCPLib) (log : Logger) (h : Honeypot) (ctx : Ctx) (nc : NetConn) (md : Metadata)
    (hto : nc.timesOut = false) (hlen : (peekSnip nc).length = 4)
    (hnh : httpMatch (peekSnip nc) = false) (hnr : peekSnip nc ≠ rdpSig) :
    ((classifyTCP T log h ctx nc md).1.filter Event.isDispatch
        = [Event.dispatchTCP (peekConn nc)])
      ∧ (classifyTCP T log h ctx nc md).2 = T.HandleTCP ctx (peekConn nc) md log h
      ∧ (peekConn nc).readAll = peekSnip nc ++ nc.readAll.drop 4 := by
  have hh2 : ¬ httpMatch (peekSnip nc) = true := by simp [hnh]
  rw [classifyTCP_not_timeout T log h ctx nc md hto, if_neg hh2, if_neg hnr]
  refine ⟨?_, rfl, ?_⟩
  · simp only [List.filter_append]
    rw [armEvents_filter_none _ _ rfl (fun m => rfl),
        clearEvents_filter_none _ _ rfl (fun m => rfl),
        peekLogEvents_filter_none _ _ (fun m => rfl)]
    simp [Event.isDispatch, List.filter]
  · rw [readAll_peekConn_snip nc hto, hlen]

/-- Witness for C4 at a concrete connection sending XYZ-newline. -/
theorem classifier_no_match_fallback_witness :
    (NetConn.raw connXYZ).timesOut = false
      ∧ (peekSnip (NetConn.raw connXYZ)).length = 4
      ∧ httpMatch (peekSnip (NetConn.raw connXYZ)) = false
      ∧ peekSnip (NetConn.raw connXYZ) ≠ rdpSig
      ∧ (((classifyTCP testLib testLog testHpot testCtx (NetConn.raw connXYZ) testMd).1.filter
            Event.isDispatch = [Event.dispatchTCP (peekConn (NetConn.raw connXYZ))])
          ∧ (classifyTCP testLib testLog testHpot testCtx (NetConn.raw connXYZ) testMd).2
              = testLib.HandleTCP testCtx (peekConn (NetConn.raw connXYZ)) testMd testLog testHpot
          ∧ (peekConn (NetConn.raw connXYZ)).readAll
              = peekSnip (NetConn.raw connXYZ) ++ (NetConn.raw connXYZ).readAll.drop 4) :=
  ⟨rfl, by decide, by decide, by decide,
   classifier_no_match_fallback testLib testLog testHpot testCtx (NetConn.raw connXYZ) testMd rfl
     (by decide) (by decide) (by decide)⟩

/-- C5: on every non-timeout path the classifier hands the chosen handler the
wrapped connection, and reading from that connection reproduces the peeked
snippet first, byte-for-byte, before continuing with the unread underlying
stream data, so classification causes no data loss visible to the handler. -/
theorem classifier_replay_invariant
    (T : TCPLib) (log : Logger) (h : Honeypot) (ctx : Ctx) (nc : NetConn) (md : Metadata)
    (hto : nc.timesOut = false) :
    ∃ e, ((classifyTCP T log h ctx nc md).1.filter Event.isDispatch = [e])
      ∧ Event.connOf e = some (peekConn nc)
      ∧ (peekConn nc).readAll
          = peekSnip nc ++ nc.readAll.drop (peekSnip nc).length
      ∧ (peekConn nc).readAll = nc.readAll := by
  have hsnip := readAll_peekConn_snip nc hto
  have hall := readAll_peekConn nc hto
  rw [classifyTCP_not_timeout T log h ctx nc md hto]
  by_cases hh : httpMatch (peekSnip nc) = true
  · rw [if_pos hh]
    exact ⟨Event.dispatchHTTP (peekConn nc),
      probe_filter_isDispatch nc (peekErr nc) _ rfl, rfl, hsnip, hall⟩
  · rw [if_neg hh]
    by_cases hr : peekSnip nc = rdpSig
    · rw [if_pos hr]
      exact ⟨Event.dispatchRDP (peekConn nc),
        probe_filter_isDispatch nc (peekErr nc) _ rfl, rfl, hsnip, hall⟩
    · rw [if_neg hr]
      exact ⟨Event.dispatchTCP (peekConn nc),
        probe_filter_isDispatch nc (peekErr nc) _ rfl, rfl, hsnip, hall⟩

/-- Witness for C5 at a concrete connection opening with a GET request. -/
theorem classifier_replay_invariant_witness :
    (NetConn.raw connGET).timesOut = false
      ∧ (∃ e, ((classifyTCP testLib testLog testHpot testCtx (NetConn.raw connGET)
            testMd).1.filter Event.isDispatch = [e])
          ∧ Event.connOf e = some (peekConn (NetConn.raw connGET))
          ∧ (peekConn (NetConn.raw connGET)).readAll
              = peekSnip (NetConn.raw connGET)
                  ++ (NetConn.raw connGET).readAll.drop (peekSnip (NetConn.raw connGET)).length
          ∧ (peekConn (NetConn.raw connGET)).readAll = (NetConn.raw connGET).readAll) :=
  ⟨rfl,
   classifier_replay_invariant testLib testLog testHpot testCtx (NetConn.raw connGET) testMd rfl⟩

/-- C6: on a peek failure that is not a network timeout (EOF, reset, short
read) the classifier logs once at debug severity, sends no banner, clears the
read deadline, and continues to signature classification with the partial
snippet: exactly one handler is dispatched, with the wrapped connection, and
the classifier returns that handler's result rather than aborting. -/
theorem classifier_peek_error_continues
    (T : TCPLib) (log : Logger) (h : Honeypot) (ctx : Ctx) (nc : NetConn) (md : Metadata)
    (hto : nc.timesOut = false) (he : peekErr nc = some PeekError.other) :
    ((classifyTCP T log h ctx nc md).1.filter Event.isDebugLog
        = [Event.logDebug "failed to peek connection"])
      ∧ ((classifyTCP T log h ctx nc md).1.filter Event.isBanner = [])
      ∧ ((classifyTCP T log h ctx nc md).1.filter Event.isClear = [Event.clearDeadline])
      ∧ ∃ e, ((classifyTCP T log h ctx nc md).1.filter Event.isDispatch = [e])
          ∧ Event.connOf e = some (peekConn nc)
          ∧ (classifyTCP T log h ctx nc md).2 = dispatchResult T log h ctx md e := by
  rw [classifyTCP_not_timeout T log h ctx nc md hto]
  by_cases hh : httpMatch (peekSnip nc) = true
  · rw [if_pos hh]
    refine ⟨?_, probe_filter_isBanner nc (peekErr nc) _ rfl,
      probe_filter_isClear nc (peekErr nc) _ rfl,
      Event.dispatchHTTP (peekConn nc), probe_filter_isDispatch nc (peekErr nc) _ rfl,
      rfl, rfl⟩
    rw [probe_filter_isDebugLog nc (peekErr nc) (Event.dispatchHTTP (peekConn nc)) rfl, he]
    rfl
  · rw [if_neg hh]
    by_cases hr : peekSnip nc = rdpSig
    · rw [if_pos hr]
      refine ⟨?_, probe_filter_isBanner nc (peekErr nc) _ rfl,
        probe_filter_isClear nc (peekErr nc) _ rfl,
        Event.dispatchRDP (peekConn nc), probe_filter_isDispatch nc (peekErr nc) _ rfl,
        rfl, rfl⟩
      rw [probe_filter_isDebugLog nc (peekErr nc) (Event.dispatchRDP (peekConn nc)) rfl, he]
      rfl
    · rw [if_neg hr]
      refine ⟨?_, probe_filter_isBanner nc (peekErr nc) _ rfl,
        probe_filter_isClear nc (peekErr nc) _ rfl,
        Event.dispatchTCP (peekConn nc), probe_filter_isDispatch nc (peekErr nc) _ rfl,
        rfl, rfl⟩
      rw [probe_filter_isDebugLog nc (peekErr nc) (Event.dispatchTCP (peekConn nc)) rfl, he]
      rfl

/-- Witness for C6 at a concrete connection that closes after two bytes. -/
theorem classifier_peek_error_continues_witness :
    (NetConn.raw connShort).timesOut = false
      ∧ peekErr (NetConn.raw connShort) = some PeekError.other
      ∧ (((classifyTCP testLib testLog testHpot testCtx (NetConn.raw connShort) testMd).1.filter
            Event.isDebugLog = [Event.logDebug "failed to peek connection"])
          ∧ ((classifyTCP testLib testLog testHpot testCtx (NetConn.raw connShort) testMd).1.filter
              Event.isBanner = [])
          ∧ ((classifyTCP testLib testLog testHpot testCtx (NetConn.raw connShort) testMd).1.filter
              Event.isClear = [Event.clearDeadline])
          ∧ ∃ e, ((classifyTCP testLib testLog testHpot testCtx (NetConn.raw connShort)
                testMd).1.filter Event.isDispatch = [e])
              ∧ Event.connOf e = some (peekConn (NetConn.raw connShort))
              ∧ (classifyTCP testLib testLog testHpot testCtx (NetConn.raw connShort) testMd).2
                  = dispatchResult testLib testLog testHpot testCtx testMd e) :=
  ⟨rfl, by decide,
   classifier_peek_error_continues testLib testLog testHpot testCtx (NetConn.raw connShort) testMd
     rfl (by decide)⟩

/-- C7: on every execution the classifier dispatches exactly one handler and
its return value is exactly that handler's return value; internally generated
errors (deadline arming or clearing failures, banner-send failure, peek
error) are handled locally and never turn the outcome into an error return of
the classifier itself. -/
theorem classifier_result_is_dispatched_handler
    (T : TCPLib) (log : Logger) (h : Honeypot) (ctx : Ctx) (nc : NetConn) (md : Metadata) :
    ∃ e, ((classifyTCP T log h ctx nc md).1.filter Event.isDispatch = [e])
      ∧ Event.isDispatch e = true
      ∧ (classifyTCP T log h ctx nc md).2 = dispatchResult T log h ctx md e := by
  rcases Bool.eq_false_or_eq_true nc.timesOut with hto | hto
  · rw [classifyTCP_timeout T log h ctx nc md hto]
    exact ⟨Event.dispatchTCP nc,
      timeout_filter_isDispatch nc (T.SendBanner md.targetPort nc md log h) md.targetPort,
      rfl, rfl⟩
  · rw [classifyTCP_not_timeout T log h ctx nc md hto]
    by_cases hh : httpMatch (peekSnip nc) = true
    · rw [if_pos hh]
      exact ⟨Event.dispatchHTTP (peekConn nc),
        probe_filter_isDispatch nc (peekErr nc) _ rfl, rfl, rfl⟩
    · rw [if_neg hh]
      by_cases hr : peekSnip nc = rdpSig
      · rw [if_pos hr]
        exact ⟨Event.dispatchRDP (peekConn nc),
          probe_filter_isDispatch nc (peekErr nc) _ rfl, rfl, rfl⟩
      · rw [if_neg hr]
        exact ⟨Event.dispatchTCP (peekConn nc),
          probe_filter_isDispatch nc (peekErr nc) _ rfl, rfl, rfl⟩

/-- C8: for every logger and honeypot context the stream-handler factory
returns a mapping with exactly the 13 keys smtp, rdp, smb, ftp, sip, rfb,
telnet, mqtt, bittorrent, memcache, jabber, adb, tcp (pairwise distinct), and
the datagram-handler factory returns a mapping with exactly the key udp; both
factories are total functions of their arguments, so construction is
deterministic and cannot fail. -/
theorem registry_exact_keys
    (T : TCPLib) (U : UDPLib) (log : Logger) (h : Honeypot) :
    ((MapTCPProtocolHandlers T log h).map Prod.fst
        = ["smtp", "rdp", "smb", "ftp", "sip", "rfb", "telnet", "mqtt",
           "bittorrent", "memcache", "jabber", "adb", "tcp"])
      ∧ ((MapTCPProtocolHandlers T log h).map Prod.fst).Nodup
      ∧ (MapUDPProtocolHandlers U log h).map Prod.fst = ["udp"] := by
  refine ⟨rfl, ?_, rfl⟩
  show (["smtp", "rdp", "smb", "ftp", "sip", "rfb", "telnet", "mqtt",
         "bittorrent", "memcache", "jabber", "adb", "tcp"] : List String).Nodup
  decide

/-- C9: on a non-timeout path whose snippet is shorter than 4 bytes the
snippet can match neither the HTTP signature set (whose members are exactly 4
characters) nor the 4-byte RDP sequence, so the classifier dispatches the
fallback raw-capture handler with the wrapped connection and returns its
result. -/
theorem classifier_short_snippet_fallback
    (T : TCPLib) (log : Logger) (h : Honeypot) (ctx : Ctx) (nc : NetConn) (md : Metadata)
    (hto : nc.timesOut = false) (hlen : nc.readAll.length < 4) :
    httpMatch (peekSnip nc) = false
      ∧ peekSnip nc ≠ rdpSig
      ∧ ((classifyTCP T log h ctx nc md).1.filter Event.isDispatch
          = [Event.dispatchTCP (peekConn nc)])
      ∧ (classifyTCP T log h ctx nc md).2 = T.HandleTCP ctx (peekConn nc) md log h := by
  have hslen : (peekSnip nc).length < 4 := by
    rw [peekSnip_eq_take nc hto, List.length_take]
    exact lt_of_le_of_lt (min_le_right _ _) hlen
  have hnh : httpMatch (peekSnip nc) = false := by
    rcases Bool.eq_false_or_eq_true (httpMatch (peekSnip nc)) with ht | hf
    · exact absurd (httpMatch_length_four _ ht) (by omega)
    · exact hf
  have hnr : peekSnip nc ≠ rdpSig := by
    intro hEq
    rw [hEq] at hslen
    exact absurd hslen (by decide)
  have hh2 : ¬ httpMatch (peekSnip nc) = true := by simp [hnh]
  refine ⟨hnh, hnr, ?_, ?_⟩
  · rw [classifyTCP_not_timeout T log h ctx nc md hto, if_neg hh2, if_neg hnr]
    exact probe_filter_isDispatch nc (peekErr nc) _ rfl
  · rw [classifyTCP_not_timeout T log h ctx nc md hto, if_neg hh2, if_neg hnr]

/-- Witness for C9 at a concrete connection that closes after two bytes. -/
theorem classifier_short_snippet_fallback_witness :
    (NetConn.raw connShort).timesOut = false
      ∧ (NetConn.raw connShort).readAll.length < 4
      ∧ (httpMatch (peekSnip (NetConn.raw connShort)) = false
          ∧ peekSnip (NetConn.raw connShort) ≠ rdpSig
          ∧ ((classifyTCP testLib testLog testHpot testCtx (NetConn.raw connShort) testMd).1.filter
              Event.isDispatch = [Event.dispatchTCP (peekConn (NetConn.raw connShort))])
          ∧ (classifyTCP testLib testLog testHpot testCtx (NetConn.raw connShort) testMd).2
              = testLib.HandleTCP testCtx (peekConn (NetConn.raw connShort)) testMd testLog
                  testHpot) :=
  ⟨rfl, by decide,
   classifier_short_snippet_fallback testLib testLog testHpot testCtx (NetConn.raw connShort)
     testMd rfl (by decide)⟩

/-- C10: the registry's rdp entry and the classifier's RDP-signature branch
invoke the same underlying RDP handler bound to the same logger and honeypot
context: looking up "rdp" in the registry yields exactly the closure applying
the RDP entry point with the bound logger and honeypot, and on an
RDP-signature path the classifier's return value equals that closure applied
to the same context, the wrapped connection and the same metadata. -/
theorem registry_rdp_equiv_classifier
    (T : TCPLib) (log : Logger) (h : Honeypot) (ctx : Ctx) (nc : NetConn) (md : Metadata)
    (hto : nc.timesOut = false) (hnh : httpMatch (peekSnip nc) = false)
    (hr : peekSnip nc = rdpSig) :
    ∃ f, ((MapTCPProtocolHandlers T log h).lookup "rdp" = some f)
      ∧ (∀ ctx2 conn2 md2, f ctx2 conn2 md2 = T.HandleRDP ctx2 conn2 md2 log h)
      ∧ (classifyTCP T log h ctx nc md).2 = f ctx (peekConn nc) md := by
  have hh2 : ¬ httpMatch (peekSnip nc) = true := by simp [hnh]
  refine ⟨fun ctx2 conn2 md2 => T.HandleRDP ctx2 conn2 md2 log h, ?_,
    fun _ _ _ => rfl, ?_⟩
  · rfl
  · rw [classifyTCP_not_timeout T log h ctx nc md hto, if_neg hh2, if_pos hr]

/-- Witness for C10 at a concrete connection opening with the RDP marker. -/
theorem registry_rdp_equiv_classifier_witness :
    (NetConn.raw connRDP).timesOut = false
      ∧ httpMatch (peekSnip (NetConn.raw connRDP)) = false
      ∧ peekSnip (NetConn.raw connRDP) = rdpSig
      ∧ (∃ f, ((MapTCPProtocolHandlers testLib testLog testHpot).lookup "rdp" = some f)
          ∧ (∀ ctx2 conn2 md2,
              f ctx2 conn2 md2 = testLib.HandleRDP ctx2 conn2 md2 testLog testHpot)
          ∧ (classifyTCP testLib testLog testHpot testCtx (NetConn.raw connRDP) testMd).2
              = f testCtx (peekConn (NetConn.raw connRDP)) testMd) :=
  ⟨rfl, by decide, by decide,
   registry_rdp_equiv_classifier testLib testLog testHpot testCtx (NetConn.raw connRDP) testMd
     rfl (by decide) (by decide)⟩
